import Mathlib

/-!
Verification of the fhir-tbs-py repository: a shallow embedding of the
topic-based-subscription (TBS) core in Lean 4, with theorems settling the
frozen claims about the specification.

Conventions of the embedding:
  - Python `str` values are modelled as Lean `String` (a structure around
    `List Char`); the Python string methods used by the source
    (`split`, `strip`, `lower`, `startswith`, `join`, membership of a
    single-character separator) are re-implemented below on `List Char`
    with their exact CPython semantics for those call sites.
  - Fallible Python code (raised `TypeError` / `AssertionError` /
    `NotImplementedError` / `IndexError`) is modelled with `Except String`.
  - Async I/O against the remote FHIR server is modelled by threading an
    explicit server state (a list of stored subscription resources) through
    the reconciliation loop.
-/

namespace FhirTbs

/-- Model of the CPython whitespace class used by `str.strip()`:
space, tab, newline, carriage return, vertical tab, form feed. -/
def pyIsSpace (c : Char) : Bool :=
  c = ' ' || c = '\t' || c = '\n' || c = '\r' || c = Char.ofNat 11 || c = Char.ofNat 12

/-- Model of Python `str.lower()` restricted to character-wise lowering
(exact for the ASCII header constants the source compares against). -/
def pyLower (l : List Char) : List Char :=
  l.map Char.toLower

/-- Model of Python `str.startswith(pat)`: `startsWithChars pat s`. -/
def startsWithChars : List Char → List Char → Bool
  | [], _ => true
  | _ :: _, [] => false
  | p :: ps, c :: cs => p = c && startsWithChars ps cs

/-- Model of Python `s.split(sep, 1)` for a single-character separator,
returning `none` when the separator does not occur (in which case the
source subscripting `[1]` would raise `IndexError`). -/
def pySplitOnce (sep : Char) : List Char → Option (List Char × List Char)
  | [] => none
  | c :: cs =>
    if c = sep then some ([], cs)
    else
      match pySplitOnce sep cs with
      | none => none
      | some (a, b) => some (c :: a, b)

/-- Model of Python `str.strip()`: drop leading and trailing whitespace. -/
def pyStrip (l : List Char) : List Char :=
  ((l.dropWhile pyIsSpace).reverse.dropWhile pyIsSpace).reverse

/-- Model of Python `str.strip(chars)` for the one-character set used by the
source (`.strip("/")`): drop leading and trailing occurrences of `c`. -/
def pyStripChar (c : Char) (l : List Char) : List Char :=
  ((l.dropWhile (· = c)).reverse.dropWhile (· = c)).reverse

/-- Model of Python `str.rstrip(chars)` for a one-character set. -/
def pyRStripChar (c : Char) (l : List Char) : List Char :=
  (l.reverse.dropWhile (· = c)).reverse

/-- Model of Python `reference.split("/")`: split a character list at every
slash; always returns at least one piece. -/
def splitSlash : List Char → List (List Char)
  | [] => [[]]
  | c :: cs =>
    match splitSlash cs with
    | [] => [[c]]
    | p :: ps => if c = '/' then [] :: p :: ps else (c :: p) :: ps

/-- Model of Python `"/".join(parts)`. -/
def joinSlash : List (List Char) → List Char
  | [] => []
  | [s] => s
  | s :: s2 :: rest => s ++ '/' :: joinSlash (s2 :: rest)

theorem splitSlash_ne_nil (l : List Char) : splitSlash l ≠ [] := by
  cases l with
  | nil => simp [splitSlash]
  | cons c cs =>
    simp only [splitSlash]
    cases splitSlash cs with
    | nil => simp
    | cons p ps =>
      by_cases h : c = '/' <;> simp [h]

theorem splitSlash_no_slash (l : List Char) (h : '/' ∉ l) : splitSlash l = [l] := by
  induction l with
  | nil => simp [splitSlash]
  | cons c cs ih =>
    have hc : c ≠ '/' := fun hc => h (hc ▸ List.mem_cons_self c cs)
    have hcs : '/' ∉ cs := fun hm => h (List.mem_cons_of_mem c hm)
    simp [splitSlash, ih hcs, hc]

theorem splitSlash_append_slash (a b : List Char) (ha : '/' ∉ a) :
    splitSlash (a ++ '/' :: b) = a :: splitSlash b := by
  induction a with
  | nil =>
    simp only [List.nil_append, splitSlash]
    cases hb : splitSlash b with
    | nil => exact absurd hb (splitSlash_ne_nil b)
    | cons p ps => simp
  | cons c cs ih =>
    have hc : c ≠ '/' := fun hc => ha (hc ▸ List.mem_cons_self c cs)
    have hcs : '/' ∉ cs := fun hm => ha (List.mem_cons_of_mem c hm)
    simp only [List.cons_append, splitSlash, List.append_eq]
    rw [ih hcs]
    simp [hc]

/-- Splitting the slash-join of slash-free segments recovers the segments. -/
theorem splitSlash_joinSlash (segs : List (List Char)) (hne : segs ≠ [])
    (hfree : ∀ s ∈ segs, '/' ∉ s) : splitSlash (joinSlash segs) = segs := by
  induction segs with
  | nil => exact absurd rfl hne
  | cons s rest ih =>
    cases rest with
    | nil =>
      simp only [joinSlash]
      exact splitSlash_no_slash s (hfree s (List.mem_cons_self s []))
    | cons s2 rest2 =>
      have hs : '/' ∉ s := hfree s (List.mem_cons_self _ _)
      have hrest : ∀ x ∈ s2 :: rest2, '/' ∉ x := fun x hx =>
        hfree x (List.mem_cons_of_mem s hx)
      simp only [joinSlash, splitSlash_append_slash s _ hs]
      rw [ih (by simp) hrest]

/-- Branching body of `extract_relative_reference` over the split parts:
when the second-to-last part is the literal history marker keep parts
`[-4:-2]`, else parts `[-2:]` (Python negative-slice clamping coincides
with Nat truncated subtraction). -/
def extractFromParts (reference : List Char) (parts : List (List Char)) : List Char :=
  if parts.length < 2 then reference
  else if parts.get? (parts.length - 2) = some ("_history".toList) then
    joinSlash ((parts.take (parts.length - 2)).drop (parts.length - 4))
  else
    joinSlash (parts.drop (parts.length - 2))

/-- Model of `fhir_tbs.utils.extract_relative_reference` on character
lists, mirroring the Python source line by line: no slash in the input
(equivalently, splitting yields a single part) returns it unchanged;
otherwise dispatch on the split parts. -/
def extractRelativeReferenceChars (reference : List Char) : List Char :=
  extractFromParts reference (splitSlash reference)

/-- Model of `fhir_tbs.utils.extract_relative_reference` on `String`. -/
def extract_relative_reference (reference : String) : String :=
  String.mk (extractRelativeReferenceChars reference.data)

theorem string_data_append (a b : String) : (a ++ b).data = a.data ++ b.data := rfl

theorem extract_relative_reference_no_slash (s : String) (h : '/' ∉ s.data) :
    extract_relative_reference s = s := by
  unfold extract_relative_reference extractRelativeReferenceChars
  rw [splitSlash_no_slash s.data h]
  unfold extractFromParts
  simp

theorem string_eq_of_data {a b : String} (h : a.data = b.data) : a = b := by
  cases a; cases b; exact congrArg String.mk h

/-- Splitting distributes over a slash that joins two character lists. -/
theorem splitSlash_append (a b : List Char) :
    splitSlash (a ++ '/' :: b) = splitSlash a ++ splitSlash b := by
  induction a with
  | nil =>
    simp only [List.nil_append, splitSlash]
    cases hb : splitSlash b with
    | nil => exact absurd hb (splitSlash_ne_nil b)
    | cons p ps => simp [splitSlash]
  | cons c cs ih =>
    simp only [List.cons_append, splitSlash, List.append_eq]
    rw [ih]
    cases hcs : splitSlash cs with
    | nil => exact absurd hcs (splitSlash_ne_nil cs)
    | cons p ps =>
      by_cases h : c = '/' <;> simp [h]

/-- Computation of the normalizer when the split parts end in two segments
the first of which is not the history marker. -/
theorem extractFromParts_not_history (r : List Char) (P : List (List Char))
    (ty idp : List Char) (hh : ty ≠ "_history".toList) :
    extractFromParts r (P ++ [ty, idp]) = ty ++ '/' :: idp := by
  unfold extractFromParts
  have hlen : (P ++ [ty, idp]).length = P.length + 2 := by simp
  rw [hlen]
  rw [if_neg (by omega)]
  have hget : (P ++ [ty, idp]).get? (P.length + 2 - 2) = some ty := by
    simp only [Nat.add_sub_cancel, List.get?_eq_getElem?]
    rw [List.getElem?_append_right (Nat.le_refl _)]
    simp
  rw [hget, if_neg (by simpa using hh)]
  have hdrop : (P ++ [ty, idp]).drop (P.length + 2 - 2) = [ty, idp] := by
    simp only [Nat.add_sub_cancel]
    exact List.drop_left _ _
  rw [hdrop]
  rfl

/-- Computation of the normalizer when the split parts end in
`[ty, idp, "_history", n]`. -/
theorem extractFromParts_history (r : List Char) (P : List (List Char))
    (ty idp n : List Char) :
    extractFromParts r (P ++ [ty, idp, "_history".toList, n]) = ty ++ '/' :: idp := by
  unfold extractFromParts
  have hlen : (P ++ [ty, idp, "_history".toList, n]).length = P.length + 4 := by simp
  rw [hlen]
  rw [if_neg (by omega)]
  have hget : (P ++ [ty, idp, "_history".toList, n]).get? (P.length + 4 - 2) =
      some ("_history".toList) := by
    have h2 : P.length + 4 - 2 = P.length + 2 := rfl
    simp only [List.get?_eq_getElem?, h2]
    rw [List.getElem?_append_right (by omega)]
    simp
  rw [hget, if_pos rfl]
  have htake : (P ++ [ty, idp, "_history".toList, n]).take (P.length + 4 - 2) =
      P ++ [ty, idp] := by
    have h2 : P.length + 4 - 2 = P.length + 2 := rfl
    rw [h2, List.take_append]
    rfl
  have hdrop : (P ++ [ty, idp]).drop (P.length + 4 - 4) = [ty, idp] := by
    have h4 : P.length + 4 - 4 = P.length := rfl
    rw [h4]
    exact List.drop_left _ _
  rw [htake, hdrop]
  rfl

theorem extract_rel_chars (ty idp : List Char) (hty : '/' ∉ ty) (hid : '/' ∉ idp)
    (hh : ty ≠ "_history".toList) :
    extractRelativeReferenceChars (ty ++ '/' :: idp) = ty ++ '/' :: idp := by
  have hsplit : splitSlash (ty ++ '/' :: idp) = [] ++ [ty, idp] := by
    rw [splitSlash_append, splitSlash_no_slash ty hty, splitSlash_no_slash idp hid]
    rfl
  unfold extractRelativeReferenceChars
  rw [hsplit, extractFromParts_not_history _ _ _ _ hh]

theorem extract_url_chars (pre ty idp : List Char) (hty : '/' ∉ ty) (hid : '/' ∉ idp)
    (hh : ty ≠ "_history".toList) :
    extractRelativeReferenceChars (pre ++ '/' :: (ty ++ '/' :: idp)) = ty ++ '/' :: idp := by
  have hsplit : splitSlash (pre ++ '/' :: (ty ++ '/' :: idp)) =
      splitSlash pre ++ [ty, idp] := by
    rw [splitSlash_append, splitSlash_append, splitSlash_no_slash ty hty,
      splitSlash_no_slash idp hid]
    rfl
  unfold extractRelativeReferenceChars
  rw [hsplit, extractFromParts_not_history _ _ _ _ hh]

theorem extract_history_chars (pre ty idp n : List Char) (hty : '/' ∉ ty)
    (hid : '/' ∉ idp) (hn : '/' ∉ n) :
    extractRelativeReferenceChars
      (pre ++ '/' :: (ty ++ '/' :: (idp ++ '/' :: ("_history".toList ++ '/' :: n)))) =
      ty ++ '/' :: idp := by
  have hhist : '/' ∉ "_history".toList := by decide
  have hsplit : splitSlash
      (pre ++ '/' :: (ty ++ '/' :: (idp ++ '/' :: ("_history".toList ++ '/' :: n)))) =
      splitSlash pre ++ [ty, idp, "_history".toList, n] := by
    rw [splitSlash_append, splitSlash_append, splitSlash_append, splitSlash_append,
      splitSlash_no_slash ty hty, splitSlash_no_slash idp hid,
      splitSlash_no_slash _ hhist, splitSlash_no_slash n hn]
    rfl
  unfold extractRelativeReferenceChars
  rw [hsplit, extractFromParts_history]

theorem slash_data : ("/" : String).data = ['/'] := rfl

theorem hist_seg_data : ("/_history/" : String).data = '/' :: ("_history".toList ++ ['/']) := rfl

/-- C8: Reference normalization is a pure, deterministic, idempotent string
transform: an already-relative reference `Type/id` is returned unchanged, a
URL-shaped reference is reduced to canonical `Type/id` with any trailing
`/_history/n` suffix stripped exactly, and a reference containing no slash
(an opaque URN) is returned unchanged; in particular
`http://host/fhir/Patient/42/_history/3` maps to `Patient/42`,
`urn:uuid:abc` maps to itself, and `Patient/42` maps to itself. -/
theorem C8_reference_normalizer :
    (∀ s : String, '/' ∉ s.data → extract_relative_reference s = s) ∧
    (∀ ty idp : String, '/' ∉ ty.data → '/' ∉ idp.data → ty.data ≠ "_history".toList →
      extract_relative_reference (ty ++ "/" ++ idp) = ty ++ "/" ++ idp) ∧
    (∀ pre ty idp : String, '/' ∉ ty.data → '/' ∉ idp.data → ty.data ≠ "_history".toList →
      extract_relative_reference (pre ++ "/" ++ ty ++ "/" ++ idp) = ty ++ "/" ++ idp ∧
      extract_relative_reference (extract_relative_reference (pre ++ "/" ++ ty ++ "/" ++ idp)) =
        extract_relative_reference (pre ++ "/" ++ ty ++ "/" ++ idp)) ∧
    (∀ pre ty idp n : String, '/' ∉ ty.data → '/' ∉ idp.data → '/' ∉ n.data →
        ty.data ≠ "_history".toList →
      extract_relative_reference (pre ++ "/" ++ ty ++ "/" ++ idp ++ "/_history/" ++ n) =
        ty ++ "/" ++ idp ∧
      extract_relative_reference (extract_relative_reference
          (pre ++ "/" ++ ty ++ "/" ++ idp ++ "/_history/" ++ n)) =
        extract_relative_reference (pre ++ "/" ++ ty ++ "/" ++ idp ++ "/_history/" ++ n)) ∧
    extract_relative_reference "http://host/fhir/Patient/42/_history/3" = "Patient/42" ∧
    extract_relative_reference "urn:uuid:abc" = "urn:uuid:abc" ∧
    extract_relative_reference "Patient/42" = "Patient/42" := by
  have hrel : ∀ ty idp : String, '/' ∉ ty.data → '/' ∉ idp.data →
      ty.data ≠ "_history".toList →
      extract_relative_reference (ty ++ "/" ++ idp) = ty ++ "/" ++ idp := by
    intro ty idp hty hid hh
    have hdata : (ty ++ "/" ++ idp).data = ty.data ++ '/' :: idp.data := by
      simp [string_data_append, slash_data]
    unfold extract_relative_reference
    rw [hdata, extract_rel_chars ty.data idp.data hty hid hh]
    exact string_eq_of_data hdata.symm
  have hurl : ∀ pre ty idp : String, '/' ∉ ty.data → '/' ∉ idp.data →
      ty.data ≠ "_history".toList →
      extract_relative_reference (pre ++ "/" ++ ty ++ "/" ++ idp) = ty ++ "/" ++ idp := by
    intro pre ty idp hty hid hh
    have hdata : (pre ++ "/" ++ ty ++ "/" ++ idp).data =
        pre.data ++ '/' :: (ty.data ++ '/' :: idp.data) := by
      simp [string_data_append, slash_data]
    have hdata2 : (ty ++ "/" ++ idp).data = ty.data ++ '/' :: idp.data := by
      simp [string_data_append, slash_data]
    unfold extract_relative_reference
    rw [hdata, extract_url_chars pre.data ty.data idp.data hty hid hh]
    exact string_eq_of_data hdata2.symm
  have hhistory : ∀ pre ty idp n : String, '/' ∉ ty.data → '/' ∉ idp.data →
      '/' ∉ n.data → ty.data ≠ "_history".toList →
      extract_relative_reference (pre ++ "/" ++ ty ++ "/" ++ idp ++ "/_history/" ++ n) =
        ty ++ "/" ++ idp := by
    intro pre ty idp n hty hid hn hh
    have hdata : (pre ++ "/" ++ ty ++ "/" ++ idp ++ "/_history/" ++ n).data =
        pre.data ++ '/' :: (ty.data ++ '/' ::
          (idp.data ++ '/' :: ("_history".toList ++ '/' :: n.data))) := by
      simp [string_data_append, slash_data, hist_seg_data, String.toList]
    have hdata2 : (ty ++ "/" ++ idp).data = ty.data ++ '/' :: idp.data := by
      simp [string_data_append, slash_data]
    unfold extract_relative_reference
    rw [hdata, extract_history_chars pre.data ty.data idp.data n.data hty hid hn]
    exact string_eq_of_data hdata2.symm
  refine ⟨fun s h => extract_relative_reference_no_slash s h, hrel, ?_, ?_, by rfl, by rfl, by rfl⟩
  · intro pre ty idp hty hid hh
    refine ⟨hurl pre ty idp hty hid hh, ?_⟩
    rw [hurl pre ty idp hty hid hh, hrel ty idp hty hid hh]
  · intro pre ty idp n hty hid hn hh
    refine ⟨hhistory pre ty idp n hty hid hn hh, ?_⟩
    rw [hhistory pre ty idp n hty hid hn hh, hrel ty idp hty hid hh]

/-- Witness for C8 at concrete inputs. -/
theorem C8_reference_normalizer_witness :
    ('/' ∉ "Patient".data) ∧ ("Patient".data ≠ "_history".toList) ∧
    extract_relative_reference ("http://host/fhir" ++ "/" ++ "Patient" ++ "/" ++ "42") =
      "Patient" ++ "/" ++ "42" :=
  ⟨by decide, by decide,
    (C8_reference_normalizer.2.2.1 "http://host/fhir" "Patient" "42"
      (by decide) (by decide) (by decide)).1⟩

/-! ### Filter encoder and R4B subscription builder (`fhir_tbs/r4b.py`) -/

/-- Model of `fhir_tbs.types.FilterBy`: `comparator` and `modifier` are
optional keys of the TypedDict, so they are `Option` here. -/
structure FilterBy where
  resource_type : String
  filter_parameter : String
  value : String
  comparator : Option String
  modifier : Option String
deriving DecidableEq

/-- Model of a Python dict update `params[k] = v` on a string-keyed dict
kept as an ordered association list: overwriting an existing key keeps its
position, a new key is appended (CPython insertion-order semantics). -/
def dictSet (m : List (String × String)) (k v : String) : List (String × String) :=
  if m.any (fun p => decide (p.1 = k)) then
    m.map (fun p => if p.1 = k then (k, v) else p)
  else m ++ [(k, v)]

/-- Modelled from the external fhirpy helper `encode_params` (an external
collaborator of this repository): renders the parameter mapping as
ampersand-joined `key=value` pairs; URL escaping is omitted since no claim
depends on it. -/
def encode_params (m : List (String × String)) : String :=
  String.intercalate "&" (m.map (fun p => p.1 ++ "=" ++ p.2))

/-- One iteration of the `_build_filter_criteria` loop body: resolve the
effective parameter name (with `:modifier` when the key is present) and
value (with the comparator prepended when present) and store it. -/
def insertParam (params : List (String × String)) (f : FilterBy) : List (String × String) :=
  let param_name :=
    match f.modifier with
    | some m => f.filter_parameter ++ ":" ++ m
    | none => f.filter_parameter
  let param_value :=
    match f.comparator with
    | some c => c ++ f.value
    | none => f.value
  dictSet params param_name param_value

/-- Loop of `_build_filter_criteria` over the filter list, carrying the
resource type seen so far and the accumulated params. A falsy resource
type (`None` or the empty string, per Python truthiness) is treated as not
yet set; a second distinct resource type raises `NotImplementedError`. -/
def filterLoop (rt : Option String) (params : List (String × String)) :
    List FilterBy → Except String (Option String × List (String × String))
  | [] => Except.ok (rt, params)
  | f :: fs =>
    match rt with
    | none => filterLoop (some f.resource_type) (insertParam params f) fs
    | some s =>
      if s = "" then filterLoop (some f.resource_type) (insertParam params f) fs
      else if s ≠ f.resource_type then
        Except.error "NotImplementedError: Only one resource type is supported for filters"
      else filterLoop rt (insertParam params f) fs

/-- Model of `fhir_tbs.r4b._build_filter_criteria`. -/
def build_filter_criteria (filter_by : List FilterBy) : Except String String :=
  match filterLoop none [] filter_by with
  | Except.error e => Except.error e
  | Except.ok (rt, params) =>
    match rt with
    | none => Except.error "TypeError: At least one filterBy is required for AidboxSubscription"
    | some s =>
      if s = "" then
        Except.error "TypeError: At least one filterBy is required for AidboxSubscription"
      else Except.ok (s ++ "?" ++ encode_params params)

/-- Model of the `fhirpy_types_r4b.Subscription` resource as populated by
`R4BClient.build_subscription`: the backport extensions are flattened into
named fields (payload content, max count, heartbeat period, timeout, filter
criteria), the channel fields keep their wire meaning. -/
structure R4BSubscription where
  status : String
  reason : String
  criteria : String
  channelType : String
  channelEndpoint : String
  channelPayload : String
  payloadContent : String
  channelHeader : Option (List String)
  maxCount : Nat
  heartbeatPeriod : Nat
  timeout : Nat
  filterCriteria : String
deriving DecidableEq

/-- Model of `fhir_tbs.types.SubscriptionDefinitionPrepared`. -/
structure SubscriptionDefinitionPrepared where
  filter_by : List FilterBy
  topic : String
  payload_content : String
  heartbeat_period : Nat
  timeout : Nat
deriving DecidableEq

/-- Model of `fhir_tbs.types.SubscriptionInfo`. -/
structure SubscriptionInfo where
  status : String
  token : Option String
deriving DecidableEq

/-- Model of `R4BClient.build_subscription`: a pure builder producing the
wire subscription in `requested` status; the credential header is present
exactly when the token is truthy (neither `None` nor empty), and building
propagates the filter-criteria errors. -/
def build_subscription (webhook_id webhook_url : String) (webhook_token : Option String)
    (subscription : SubscriptionDefinitionPrepared) : Except String R4BSubscription :=
  match build_filter_criteria subscription.filter_by with
  | Except.error e => Except.error e
  | Except.ok fc =>
    Except.ok
      { status := "requested"
        reason := "Autogenerated subscription for " ++ webhook_id
        criteria := subscription.topic
        channelType := "rest-hook"
        channelEndpoint := webhook_url
        channelPayload := "application/fhir+json"
        payloadContent := subscription.payload_content
        channelHeader :=
          match webhook_token with
          | some t => if t = "" then none else some ["X-Api-Key: " ++ t]
          | none => none
        maxCount := 1
        heartbeatPeriod := subscription.heartbeat_period
        timeout := subscription.timeout
        filterCriteria := fc }

/-- Loop of `R4BClient.extract_subscription_info` over the channel headers:
the last header whose lowercased form starts with the api-key marker
determines the token via `split(":", 1)[1].strip()`; a matching header
without a colon makes the subscript raise `IndexError`. -/
def headerTokenLoop (token : Option String) : List String → Except String (Option String)
  | [] => Except.ok token
  | h :: hs =>
    if startsWithChars "x-api-key".data (pyLower h.data) then
      match pySplitOnce ':' h.data with
      | none => Except.error "IndexError: list index out of range"
      | some (_, rest) => headerTokenLoop (some (String.mk (pyStrip rest))) hs
    else headerTokenLoop token hs

/-- Model of `R4BClient.extract_subscription_info`. -/
def extract_subscription_info (subscription : R4BSubscription) :
    Except String SubscriptionInfo :=
  match headerTokenLoop none (subscription.channelHeader.getD []) with
  | Except.error e => Except.error e
  | Except.ok token => Except.ok { status := subscription.status, token := token }

theorem startsWithChars_append (p rest : List Char) :
    startsWithChars p (p ++ rest) = true := by
  induction p with
  | nil => rfl
  | cons c cs ih => simp [startsWithChars, ih]

theorem pySplitOnce_append (a b : List Char) (ha : ':' ∉ a) :
    pySplitOnce ':' (a ++ ':' :: b) = some (a, b) := by
  induction a with
  | nil => simp [pySplitOnce]
  | cons c cs ih =>
    have hc : c ≠ ':' := fun hc => ha (hc ▸ List.mem_cons_self c cs)
    have hcs : ':' ∉ cs := fun hm => ha (List.mem_cons_of_mem c hm)
    simp only [List.cons_append, pySplitOnce, List.append_eq]
    rw [ih hcs]
    simp [hc]

theorem dropWhile_of_head_not_space (l : List Char)
    (h : ∀ c, l.head? = some c → pyIsSpace c = false) :
    l.dropWhile pyIsSpace = l := by
  cases l with
  | nil => rfl
  | cons c cs => simp [List.dropWhile_cons, h c rfl]

theorem pyStrip_space_cons (l : List Char)
    (hhead : ∀ c, l.head? = some c → pyIsSpace c = false)
    (hlast : ∀ c, l.getLast? = some c → pyIsSpace c = false) :
    pyStrip (' ' :: l) = l := by
  unfold pyStrip
  have h1 : (' ' :: l).dropWhile pyIsSpace = l.dropWhile pyIsSpace := by
    simp [List.dropWhile_cons, pyIsSpace]
  rw [h1, dropWhile_of_head_not_space l hhead]
  have h2 : l.reverse.dropWhile pyIsSpace = l.reverse := by
    apply dropWhile_of_head_not_space
    intro c hc
    exact hlast c (by simpa using hc)
  rw [h2, List.reverse_reverse]

theorem string_mk_data (s : String) : String.mk s.data = s := by
  cases s; rfl

/-- C10: Round-trip of the token through build and extract: for a non-empty
token with no leading or trailing whitespace, the subscription built by
`build_subscription` extracts back to status `requested` and exactly that
token; building with no token extracts token `none`. -/
theorem C10_token_roundtrip :
    (∀ (webhook_id webhook_url : String) (prep : SubscriptionDefinitionPrepared)
        (t fc : String),
      build_filter_criteria prep.filter_by = Except.ok fc →
      t.data ≠ [] →
      (∀ c, t.data.head? = some c → pyIsSpace c = false) →
      (∀ c, t.data.getLast? = some c → pyIsSpace c = false) →
      (build_subscription webhook_id webhook_url (some t) prep).bind
          extract_subscription_info =
        Except.ok { status := "requested", token := some t }) ∧
    (∀ (webhook_id webhook_url : String) (prep : SubscriptionDefinitionPrepared)
        (fc : String),
      build_filter_criteria prep.filter_by = Except.ok fc →
      (build_subscription webhook_id webhook_url none prep).bind
          extract_subscription_info =
        Except.ok { status := "requested", token := none }) := by
  constructor
  · intro webhook_id webhook_url prep t fc hfc hne hhead hlast
    have htne : t ≠ "" := fun h => hne (by rw [h])
    unfold build_subscription
    rw [hfc]
    simp only [Except.bind]
    unfold extract_subscription_info
    simp only [if_neg htne, Option.getD]
    have hdata : ("X-Api-Key: " ++ t).data = "X-Api-Key".data ++ ':' :: (' ' :: t.data) := by
      rw [string_data_append]
      rfl
    have hlow : pyLower ("X-Api-Key: " ++ t).data =
        "x-api-key".data ++ (": ".data ++ pyLower t.data) := by
      rw [string_data_append]
      unfold pyLower
      rw [List.map_append]
      rfl
    unfold headerTokenLoop
    rw [hlow, if_pos (startsWithChars_append "x-api-key".data (": ".data ++ pyLower t.data))]
    rw [hdata, pySplitOnce_append _ _ (by decide)]
    show ((match headerTokenLoop (some (String.mk (pyStrip (' ' :: t.data)))) [] with
      | Except.error e => Except.error e
      | Except.ok token => Except.ok { status := "requested", token := token }) :
        Except String SubscriptionInfo) =
      Except.ok { status := "requested", token := some t }
    rw [pyStrip_space_cons t.data hhead hlast, string_mk_data]
    rfl
  · intro webhook_id webhook_url prep fc hfc
    unfold build_subscription
    rw [hfc]
    simp only [Except.bind]
    unfold extract_subscription_info
    rfl

/-! ### Notification bundle decoding (`R4BClient.extract_subscription_events_from_bundle`) -/

/-- Model of `fhirpy_types_r4b.Reference` restricted to the one field the
source reads and rewrites. -/
structure ReferenceM where
  reference : Option String
deriving DecidableEq

/-- Model of an r4b `SubscriptionStatus` notification event; `eventNumber`
is carried already parsed as an integer (the source converts the wire
string with `int(...)`). -/
structure NotificationEvent where
  focus : Option ReferenceM
  additionalContext : Option (List ReferenceM)
  timestamp : Option String
  eventNumber : Int
deriving DecidableEq

/-- Model of a resource stored in a bundle entry. The pydantic decoding
dispatches on the wire `resourceType` discriminator, so the Python
`isinstance(resource, r4b.SubscriptionStatus)` check corresponds to
`resourceType = "SubscriptionStatus"`; `notificationEvent` is populated
only on status resources. -/
structure R4BResource where
  resourceType : String
  id : Option String
  notificationEvent : Option (List NotificationEvent)
deriving DecidableEq

/-- Model of an r4b `BundleEntry` restricted to the field the source reads. -/
structure BundleEntry where
  resource : Option R4BResource
deriving DecidableEq

/-- Model of an r4b `Bundle` restricted to the field the source reads. -/
structure R4BBundle where
  entry : Option (List BundleEntry)
deriving DecidableEq

/-- Model of `_extract_relative_references_recursive` at a `Reference`
node: a truthy (non-`None`, non-empty) reference string is replaced by its
normalized relative form. -/
def normalizeReference (r : ReferenceM) : ReferenceM :=
  { reference :=
      match r.reference with
      | some s => some (if s = "" then s else extract_relative_reference s)
      | none => none }

/-- Recursive reference normalization over a notification event. -/
def normalizeEvent (ev : NotificationEvent) : NotificationEvent :=
  { ev with
    focus := ev.focus.map normalizeReference
    additionalContext := ev.additionalContext.map (List.map normalizeReference) }

/-- Recursive reference normalization over a bundle resource. -/
def normalizeResource (r : R4BResource) : R4BResource :=
  { r with notificationEvent := r.notificationEvent.map (List.map normalizeEvent) }

/-- Recursive reference normalization over a bundle entry. -/
def normalizeEntry (e : BundleEntry) : BundleEntry :=
  { e with resource := e.resource.map normalizeResource }

/-- Recursive reference normalization over a whole bundle, the model of
`_extract_relative_references_recursive(notification_bundle)`. -/
def normalizeBundle (b : R4BBundle) : R4BBundle :=
  { b with entry := b.entry.map (List.map normalizeEntry) }

/-- Model of `fhir_tbs.types.SubscriptionEvent`. -/
structure SubscriptionEvent where
  reference : String
  included_resources : List R4BResource
  timestamp : Option String
  event_number : Int
deriving DecidableEq

/-- Key of the inlined-resource mapping: the Python f-string
`f"{resourceType}/{id}"`, where a missing id renders as the string
`None`. -/
def resourceKey (r : R4BResource) : String :=
  r.resourceType ++ "/" ++ (match r.id with | some i => i | none => "None")

/-- The inlined-resource mapping built from the bundle entries after the
first, in entry order, skipping entries without a resource; with the
last-wins lookup below this models the Python dict comprehension. -/
def includedResourcesMap (entries : List BundleEntry) : List (String × R4BResource) :=
  entries.filterMap (fun e => e.resource.map (fun r => (resourceKey r, r)))

/-- Lookup in the inlined-resource mapping: the last binding of a key wins,
as in the Python dict comprehension. -/
def mapLookup (m : List (String × R4BResource)) (k : String) : Option R4BResource :=
  (m.reverse.find? (fun p => decide (p.1 = k))).map (fun p => p.2)

/-- Truthy focus reference of an event: the Python guard
`if not event.focus or not event.focus.reference: continue` skips events
whose focus is `None` or whose reference is `None` or empty. -/
def eventFocusRef (ev : NotificationEvent) : Option String :=
  match ev.focus with
  | none => none
  | some f =>
    match f.reference with
    | none => none
    | some r => if r = "" then none else some r

/-- Truthy additional-context references of an event, in order. -/
def eventContextRefs (ev : NotificationEvent) : List String :=
  (ev.additionalContext.getD []).filterMap (fun c =>
    match c.reference with
    | none => none
    | some r => if r = "" then none else some r)

/-- Loop of `extract_subscription_events_from_bundle` over the
notification events: skip events without a truthy focus reference, and for
the rest collect the mapping values of the context references followed by
the focus reference, keeping only references present in the mapping. -/
def processEvents (m : List (String × R4BResource)) :
    List NotificationEvent → List SubscriptionEvent
  | [] => []
  | ev :: evs =>
    match eventFocusRef ev with
    | none => processEvents m evs
    | some focusRef =>
      { reference := focusRef
        included_resources := (eventContextRefs ev ++ [focusRef]).filterMap (mapLookup m)
        timestamp := ev.timestamp
        event_number := ev.eventNumber } :: processEvents m evs

/-- Model of `R4BClient.extract_subscription_events_from_bundle`: normalize
every reference recursively, fail (Python `assert` on a falsy value) when
the entry list is missing or empty or the first resource is missing or not
a `SubscriptionStatus`, build the last-wins inlined-resource mapping from
the remaining entries, and emit one event per focus-bearing notification
event. -/
def extract_subscription_events_from_bundle (bundle_data : R4BBundle) :
    Except String (List SubscriptionEvent) :=
  match (normalizeBundle bundle_data).entry with
  | none => Except.error "AssertionError: notification_bundle.entry"
  | some [] => Except.error "AssertionError: notification_bundle.entry"
  | some (e0 :: rest) =>
    match e0.resource with
    | none => Except.error "AssertionError: notification_bundle.entry[0].resource"
    | some st =>
      if st.resourceType ≠ "SubscriptionStatus" then
        Except.error "AssertionError: isinstance SubscriptionStatus"
      else
        Except.ok (processEvents (includedResourcesMap rest) (st.notificationEvent.getD []))

/-- Per-event description of the decoder output used to state the claims:
a focus-bearing event contributes one `SubscriptionEvent` whose includes
are the context references followed by the focus reference, filtered by
mapping membership, in that order and with duplicates retained. -/
def describeEvent (m : List (String × R4BResource)) (ev : NotificationEvent) :
    Option SubscriptionEvent :=
  (eventFocusRef ev).map (fun focusRef =>
    { reference := focusRef
      included_resources := (eventContextRefs ev ++ [focusRef]).filterMap (mapLookup m)
      timestamp := ev.timestamp
      event_number := ev.eventNumber })

theorem processEvents_eq_filterMap (m : List (String × R4BResource))
    (evs : List NotificationEvent) :
    processEvents m evs = evs.filterMap (describeEvent m) := by
  induction evs with
  | nil => rfl
  | cons ev rest ih =>
    cases h : eventFocusRef ev with
    | none =>
      have hd : describeEvent m ev = none := by
        unfold describeEvent
        rw [h]
        rfl
      simp only [processEvents, h, List.filterMap_cons, hd]
      exact ih
    | some focusRef =>
      have hd : describeEvent m ev = some
          { reference := focusRef
            included_resources := (eventContextRefs ev ++ [focusRef]).filterMap (mapLookup m)
            timestamp := ev.timestamp
            event_number := ev.eventNumber } := by
        unfold describeEvent
        rw [h]
        rfl
      simp only [processEvents, h, List.filterMap_cons, hd]
      rw [ih]

/-- Structure of a successful decode: when the first entry carries a
`SubscriptionStatus` resource, decoding succeeds and yields exactly the
description of each focus-bearing normalized event over the last-wins
mapping built from the normalized later entries. -/
theorem extract_ok_structure (b : R4BBundle) (e0 : BundleEntry)
    (rest : List BundleEntry) (st : R4BResource)
    (hentry : b.entry = some (e0 :: rest))
    (hres : e0.resource = some st)
    (hty : st.resourceType = "SubscriptionStatus") :
    extract_subscription_events_from_bundle b =
      Except.ok (((st.notificationEvent.getD []).map normalizeEvent).filterMap
        (describeEvent (includedResourcesMap (rest.map normalizeEntry)))) := by
  unfold extract_subscription_events_from_bundle
  have h1 : (normalizeBundle b).entry = some (normalizeEntry e0 :: rest.map normalizeEntry) := by
    simp [normalizeBundle, hentry]
  have h2 : (normalizeEntry e0).resource = some (normalizeResource st) := by
    simp [normalizeEntry, hres]
  have h3 : (normalizeResource st).resourceType = "SubscriptionStatus" := hty
  simp only [h1, h2]
  rw [if_neg (by simp [h3])]
  have h4 : (normalizeResource st).notificationEvent.getD [] =
      (st.notificationEvent.getD []).map normalizeEvent := by
    unfold normalizeResource
    cases st.notificationEvent <;> rfl
  rw [h4, processEvents_eq_filterMap]

/-- Witness for C10 at a concrete token and definition. -/
theorem C10_token_roundtrip_witness :
    (build_filter_criteria [⟨"Patient", "status", "active", none, none⟩] =
      Except.ok "Patient?status=active") ∧
    (build_subscription "wh" "http://app/webhook/wh" (some "secret")
        ⟨[⟨"Patient", "status", "active", none, none⟩], "topic1", "id-only", 20, 60⟩).bind
        extract_subscription_info =
      Except.ok { status := "requested", token := some "secret" } :=
  ⟨by rfl,
    C10_token_roundtrip.1 "wh" "http://app/webhook/wh"
      ⟨[⟨"Patient", "status", "active", none, none⟩], "topic1", "id-only", 20, 60⟩
      "secret" "Patient?status=active" (by rfl) (by decide)
      (by intro c hc; simp at hc; subst hc; rfl)
      (by intro c hc; simp at hc; subst hc; rfl)⟩

/-! ### Request wrapper (`AbstractTBS._wrapper`) and decoding claims -/

/-- Outcome of one webhook request through the wrapper: an unauthorized
short-circuit, a decode failure, the single-event assertion failure, or a
success echoing the original body after dispatching the listed events to
the handler (the dispatched list records exactly the handler invocations,
in order). -/
inductive WrapperResult where
  | unauthorized
  | decodeError (msg : String)
  | assertionFailed (msg : String)
  | responded (dispatched : List SubscriptionEvent) (body : R4BBundle)
deriving DecidableEq

/-- Model of `AbstractTBS._wrapper` instantiated with the R4B decoder:
when a token is configured and the `x-api-key` header value differs, the
request is rejected before any body processing; otherwise the body is
decoded, the assert `len(events) <= 1` is checked, and each decoded event
is dispatched before the original body is echoed. -/
def wrapped_handler (token : Option String) (apiKeyHeader : Option String)
    (body : R4BBundle) : WrapperResult :=
  if token.isSome ∧ apiKeyHeader ≠ token then WrapperResult.unauthorized
  else
    match extract_subscription_events_from_bundle body with
    | Except.error e => WrapperResult.decodeError e
    | Except.ok events =>
      if events.length ≤ 1 then WrapperResult.responded events body
      else WrapperResult.assertionFailed "Only one event can be passed into handler"

/-- The decoder output has one element per focus-bearing event. -/
theorem filterMap_describe_length (m : List (String × R4BResource))
    (l : List NotificationEvent) :
    (l.filterMap (describeEvent m)).length = (l.filterMap eventFocusRef).length := by
  induction l with
  | nil => rfl
  | cons ev rest ih =>
    cases h : eventFocusRef ev with
    | none =>
      have hd : describeEvent m ev = none := by
        unfold describeEvent
        rw [h]
        rfl
      simp [List.filterMap_cons, h, hd, ih]
    | some focusRef =>
      have hd : describeEvent m ev = some
          { reference := focusRef
            included_resources := (eventContextRefs ev ++ [focusRef]).filterMap (mapLookup m)
            timestamp := ev.timestamp
            event_number := ev.eventNumber } := by
        unfold describeEvent
        rw [h]
        rfl
      simp [List.filterMap_cons, h, hd, ih]

/-- Concrete Patient resource used in the decoding examples. -/
def patientOne : R4BResource :=
  { resourceType := "Patient", id := some "1", notificationEvent := none }

/-- Concrete status resource whose single notification event lists its own
focus reference also as additional context. -/
def dupStatusResource : R4BResource :=
  { resourceType := "SubscriptionStatus"
    id := some "s"
    notificationEvent := some
      [ { focus := some { reference := some "Patient/1" }
          additionalContext := some [{ reference := some "Patient/1" }]
          timestamp := none
          eventNumber := 1 } ] }

/-- Concrete bundle holding `dupStatusResource` followed by the inlined
focus resource. -/
def dupContextBundle : R4BBundle :=
  { entry := some [{ resource := some dupStatusResource }, { resource := some patientOne }] }

/-- C3 counterexample: on a bundle whose event carries its focus reference
also as additional context, the decoder emits the inlined resource twice in
`included_resources` (context occurrence then focus occurrence), so the
output is not de-duplicated as the claim states. -/
theorem C3_counterexample :
    extract_subscription_events_from_bundle dupContextBundle =
      Except.ok
        [{ reference := "Patient/1"
           included_resources := [patientOne, patientOne]
           timestamp := none
           event_number := 1 }] ∧
    ¬ ([patientOne, patientOne] : List R4BResource).Nodup := by
  exact ⟨by rfl, by simp⟩

/-- C3 (amended): for every notification event of the status resource that
carries a truthy focus reference, the decoder emits one event whose
`included_resources` is the concatenation of the additional-context
references followed by the focus reference, restricted to references
present in the last-wins inlined-resource mapping built from the bundle
entries after the first, in that order and with duplicates retained;
events lacking a focus reference are silently skipped. -/
theorem C3_included_resources_order (b : R4BBundle) (e0 : BundleEntry)
    (rest : List BundleEntry) (st : R4BResource)
    (hentry : b.entry = some (e0 :: rest))
    (hres : e0.resource = some st)
    (hty : st.resourceType = "SubscriptionStatus") :
    extract_subscription_events_from_bundle b =
      Except.ok (((st.notificationEvent.getD []).map normalizeEvent).filterMap
        (describeEvent (includedResourcesMap (rest.map normalizeEntry)))) :=
  extract_ok_structure b e0 rest st hentry hres hty

/-- Witness for C3 at the concrete duplicate-context bundle. -/
theorem C3_included_resources_order_witness :
    extract_subscription_events_from_bundle dupContextBundle =
      Except.ok (((dupStatusResource.notificationEvent.getD []).map normalizeEvent).filterMap
        (describeEvent (includedResourcesMap
          ([{ resource := some patientOne }].map normalizeEntry)))) :=
  C3_included_resources_order dupContextBundle { resource := some dupStatusResource }
    [{ resource := some patientOne }] dupStatusResource rfl rfl rfl

/-- C6: decoding fails fatally whenever the entry list is missing or
empty, or the first entry has no resource, or its resource is not a
`SubscriptionStatus`; no events are returned in any of those cases. -/
theorem C6_decode_requires_status (b : R4BBundle)
    (h : b.entry = none ∨ b.entry = some [] ∨
      ∃ e0 rest, b.entry = some (e0 :: rest) ∧
        (e0.resource = none ∨
          ∃ st, e0.resource = some st ∧ st.resourceType ≠ "SubscriptionStatus")) :
    ∃ msg, extract_subscription_events_from_bundle b = Except.error msg := by
  unfold extract_subscription_events_from_bundle
  rcases h with h | h | ⟨e0, rest, hentry, hres⟩
  · rw [show (normalizeBundle b).entry = none by simp [normalizeBundle, h]]
    exact ⟨_, rfl⟩
  · rw [show (normalizeBundle b).entry = some [] by simp [normalizeBundle, h]]
    exact ⟨_, rfl⟩
  · have h1 : (normalizeBundle b).entry =
        some (normalizeEntry e0 :: rest.map normalizeEntry) := by
      simp [normalizeBundle, hentry]
    simp only [h1]
    rcases hres with hres | ⟨st, hres, hty⟩
    · have h2 : (normalizeEntry e0).resource = none := by simp [normalizeEntry, hres]
      simp only [h2]
      exact ⟨_, rfl⟩
    · have h2 : (normalizeEntry e0).resource = some (normalizeResource st) := by
        simp [normalizeEntry, hres]
      simp only [h2]
      rw [if_pos (by simpa [normalizeResource] using hty)]
      exact ⟨_, rfl⟩

/-- Witness for C6 at the bundle with no entry list. -/
theorem C6_decode_requires_status_witness :
    ∃ msg, extract_subscription_events_from_bundle { entry := none } = Except.error msg :=
  C6_decode_requires_status { entry := none } (Or.inl rfl)

/-- C4: against a route configured with a token, a request whose
`x-api-key` header is missing or differs from the token is rejected as
unauthorized for every body, so the handler is never invoked and no body
processing happens. -/
theorem C4_unauthorized (t : String) (hdr : Option String) (b : R4BBundle)
    (h : hdr ≠ some t) :
    wrapped_handler (some t) hdr b = WrapperResult.unauthorized := by
  unfold wrapped_handler
  rw [if_pos ⟨rfl, h⟩]

/-- Witness for C4 at a concrete token and missing header. -/
theorem C4_unauthorized_witness :
    wrapped_handler (some "tok") none { entry := none } = WrapperResult.unauthorized :=
  C4_unauthorized "tok" none { entry := none } (by decide)

/-- Concrete status resource listing two notification events, the second
of which lacks a focus reference. -/
def twoEventStatus : R4BResource :=
  { resourceType := "SubscriptionStatus"
    id := some "s"
    notificationEvent := some
      [ { focus := some { reference := some "Patient/1" }
          additionalContext := none
          timestamp := none
          eventNumber := 1 }
      , { focus := none
          additionalContext := none
          timestamp := none
          eventNumber := 2 } ] }

/-- Concrete bundle holding `twoEventStatus` alone. -/
def twoEventBundle : R4BBundle :=
  { entry := some [{ resource := some twoEventStatus }] }

/-- C5 counterexample: a bundle whose status resource lists two
notification events, one of which lacks a focus reference, decodes to a
single event, passes the assert, and dispatches the handler, contradicting
the claim that every bundle listing two or more events fails the
single-event assertion. -/
theorem C5_counterexample :
    (twoEventStatus.notificationEvent.getD []).length = 2 ∧
    wrapped_handler none none twoEventBundle =
      WrapperResult.responded
        [{ reference := "Patient/1"
           included_resources := []
           timestamp := none
           event_number := 1 }]
        twoEventBundle :=
  ⟨rfl, by rfl⟩

/-- Concrete status resource listing two focus-bearing events. -/
def twoFocusStatus : R4BResource :=
  { resourceType := "SubscriptionStatus"
    id := some "s"
    notificationEvent := some
      [ { focus := some { reference := some "Patient/1" }
          additionalContext := none
          timestamp := none
          eventNumber := 1 }
      , { focus := some { reference := some "Patient/2" }
          additionalContext := none
          timestamp := none
          eventNumber := 2 } ] }

/-- Concrete bundle holding `twoFocusStatus` alone. -/
def twoFocusBundle : R4BBundle :=
  { entry := some [{ resource := some twoFocusStatus }] }

/-- C5 (amended): for every authenticated request whose bundle status
resource lists two or more focus-bearing notification events, the wrapper
fails its single-event assertion (`len(events) <= 1`) and dispatches
nothing to the handler. -/
theorem C5_single_event_invariant (token hdr : Option String) (b : R4BBundle)
    (e0 : BundleEntry) (rest : List BundleEntry) (st : R4BResource)
    (hauth : ¬(token.isSome ∧ hdr ≠ token))
    (hentry : b.entry = some (e0 :: rest))
    (hres : e0.resource = some st)
    (hty : st.resourceType = "SubscriptionStatus")
    (hcount : 2 ≤
      (((st.notificationEvent.getD []).map normalizeEvent).filterMap eventFocusRef).length) :
    wrapped_handler token hdr b =
      WrapperResult.assertionFailed "Only one event can be passed into handler" := by
  unfold wrapped_handler
  rw [if_neg hauth, extract_ok_structure b e0 rest st hentry hres hty]
  show (if (((st.notificationEvent.getD []).map normalizeEvent).filterMap
      (describeEvent (includedResourcesMap (rest.map normalizeEntry)))).length ≤ 1 then
      WrapperResult.responded _ b
    else WrapperResult.assertionFailed "Only one event can be passed into handler") =
    WrapperResult.assertionFailed "Only one event can be passed into handler"
  rw [if_neg (by rw [filterMap_describe_length]; omega)]

/-- Witness for C5 at the concrete two-focus bundle. -/
theorem C5_single_event_invariant_witness :
    wrapped_handler none none twoFocusBundle =
      WrapperResult.assertionFailed "Only one event can be passed into handler" :=
  C5_single_event_invariant none none twoFocusBundle
    { resource := some twoFocusStatus } [] twoFocusStatus
    (by simp) rfl rfl rfl (by decide)

/-! ### Reconciliation and lifecycle (`AbstractTBS._ctx_factory`) -/

/-- Model of `fhir_tbs.types.SubscriptionCommonDefinition`: the three
common settings, all optional. -/
structure SubscriptionCommonDefinition where
  payload_content : Option String
  heartbeat_period : Option Nat
  timeout : Option Nat
deriving DecidableEq

/-- Model of `SubscriptionDefinitionWithHandler`: the handler callable is
identified by its module and name, which the loop uses to derive a webhook
id when none is declared. -/
structure SubscriptionDefinitionWithHandler where
  topic : String
  filter_by : List FilterBy
  payload_content : Option String
  heartbeat_period : Option Nat
  timeout : Option Nat
  webhook_id : Option String
  handlerModule : String
  handlerName : String
deriving DecidableEq

/-- Model of the prepared-definition resolution at the top of the
`_ctx_factory` loop (`self.subscription_defaults or \x7b\x7d` then
`.get` chains): each setting falls back from the definition to the
defaults object to the built-in constant, and the built-in constants in
this code are payload content `id-only`, timeout `20` and heartbeat
period `60`. -/
def prepareDefinition (defaults : Option SubscriptionCommonDefinition)
    (d : SubscriptionDefinitionWithHandler) : SubscriptionDefinitionPrepared :=
  let subscription_defaults := defaults.getD { payload_content := none, heartbeat_period := none, timeout := none }
  { payload_content :=
      d.payload_content.getD (subscription_defaults.payload_content.getD "id-only")
    timeout := d.timeout.getD (subscription_defaults.timeout.getD 20)
    heartbeat_period :=
      d.heartbeat_period.getD (subscription_defaults.heartbeat_period.getD 60)
    filter_by := d.filter_by
    topic := d.topic }

/-- Model of the configuration accepted by `setup_tbs`; `webhook_path_pref`
models the webhook path pre-fix argument, and the FHIR client getter is
modelled by a presence flag (the client itself being the threaded server
state). -/
structure TBSConfig where
  webhook_path_pref : String
  webhook_token : Option String
  manage_subscriptions : Bool
  handle_delivery_errors : Bool
  app_url : Option String
  has_fhir_client : Bool
deriving DecidableEq

/-- A route registered via `app.add_routes`: the posted path, the token the
wrapper closes over, and the handler identity. -/
structure Route where
  path : String
  token : Option String
  handler : String
deriving DecidableEq

/-- State threaded through the `_ctx_factory` loop: the remote server
content, the current value of the (shared, reassignable) `webhook_token`
variable, and logs of the creations, deletions and registered routes. -/
structure CtxState where
  server : List R4BSubscription
  token : Option String
  created : List R4BSubscription
  deleted : List R4BSubscription
  routes : List Route
deriving DecidableEq

/-- Model of Python `webhook_path_prefix.strip("/")` at `String` level. -/
def stripSlashes (s : String) : String :=
  String.mk (pyStripChar '/' s.data)

/-- Model of Python `app_url.rstrip("/")` at `String` level. -/
def rstripSlashes (s : String) : String :=
  String.mk (pyRStripChar '/' s.data)

/-- Model of `R4BClient.fetch_subscription`: the remote search by the
`url` parameter returns the first stored subscription whose channel
endpoint equals the webhook URL, or none. -/
def fetch_subscription (server : List R4BSubscription) (webhook_url : String) :
    Option R4BSubscription :=
  server.find? (fun sub => decide (sub.channelEndpoint = webhook_url))

/-- Webhook id resolution: a falsy declared id (absent or empty) requires
management to be enabled and falls back to `module.name` of the handler,
else the loop raises `TypeError`. -/
def resolveWebhookId (cfg : TBSConfig) (d : SubscriptionDefinitionWithHandler) :
    Except String String :=
  let wid := d.webhook_id.getD ""
  if wid = "" then
    if ¬cfg.manage_subscriptions then
      Except.error "TypeError: webhook_id should be set for non-managed subscriptions in the definition"
    else Except.ok (d.handlerModule ++ "." ++ d.handlerName)
  else Except.ok wid

/-- The webhook path `"/".join([webhook_path_prefix.strip("/"), webhook_id])`. -/
def webhookPathOf (cfg : TBSConfig) (webhook_id : String) : String :=
  stripSlashes cfg.webhook_path_pref ++ "/" ++ webhook_id

/-- The webhook URL built from the application base URL and the path. -/
def webhookUrlOf (cfg : TBSConfig) (webhook_path : String) : String :=
  rstripSlashes (cfg.app_url.getD "") ++ "/" ++ webhook_path

/-- Route registration at the end of the loop body
(`app.add_routes([web.post(f"/\x7bwebhook_path\x7d", ...)])`), closing
over the current value of the shared `webhook_token` variable. -/
def registerRoute (st : CtxState) (cfg : TBSConfig) (webhook_id : String)
    (d : SubscriptionDefinitionWithHandler) : CtxState :=
  { st with routes := st.routes ++
      [{ path := "/" ++ webhookPathOf cfg webhook_id
         token := st.token
         handler := d.handlerModule ++ "." ++ d.handlerName }] }

/-- Build a new remote subscription with the current token, create it on
the server, then register the route; building can fail on the filter
criteria. -/
def createAndRegister (st : CtxState) (cfg : TBSConfig) (webhook_id : String)
    (d : SubscriptionDefinitionWithHandler)
    (prepared : SubscriptionDefinitionPrepared) : Except String CtxState :=
  match build_subscription webhook_id (webhookUrlOf cfg (webhookPathOf cfg webhook_id))
      st.token prepared with
  | Except.error e => Except.error e
  | Except.ok sub =>
    Except.ok (registerRoute
      { st with server := st.server ++ [sub], created := st.created ++ [sub] }
      cfg webhook_id d)

/-- One iteration of the `_ctx_factory` loop over a declared definition:
resolve the webhook id, check the mandatory client and base URL when
management or delivery-error handling is requested, fetch the existing
subscription by URL, and under management either reuse an `active` match
(overwriting the shared token variable with its extracted token), or
delete a non-active match and create a replacement, or create a fresh
subscription; delivery-error handling alone is a no-op; finally register
the route with the current token. -/
def processOne (cfg : TBSConfig) (defaults : Option SubscriptionCommonDefinition)
    (st : CtxState) (d : SubscriptionDefinitionWithHandler) : Except String CtxState :=
  match resolveWebhookId cfg d with
  | Except.error e => Except.error e
  | Except.ok webhook_id =>
    if cfg.manage_subscriptions || cfg.handle_delivery_errors then
      if ¬cfg.has_fhir_client then
        Except.error "TypeError: get_fhir_client must be provided to use manage_subscriptions/handle_delivery_errors"
      else if cfg.app_url.getD "" = "" then
        Except.error "TypeError: app_url must be provided to use manage_subscriptions/handle_delivery_errors"
      else if cfg.manage_subscriptions then
        match fetch_subscription st.server (webhookUrlOf cfg (webhookPathOf cfg webhook_id)) with
        | some existing_subscription =>
          match extract_subscription_info existing_subscription with
          | Except.error e => Except.error e
          | Except.ok existing_subscription_info =>
            if existing_subscription_info.status = "active" then
              Except.ok (registerRoute { st with token := existing_subscription_info.token }
                cfg webhook_id d)
            else
              createAndRegister
                { st with server := st.server.erase existing_subscription
                          deleted := st.deleted ++ [existing_subscription] }
                cfg webhook_id d (prepareDefinition defaults d)
        | none => createAndRegister st cfg webhook_id d (prepareDefinition defaults d)
      else Except.ok (registerRoute st cfg webhook_id d)
    else Except.ok (registerRoute st cfg webhook_id d)

/-- The `_ctx_factory` loop over the declared definitions, in declaration
order, stopping at the first raised error. -/
def runDefs (cfg : TBSConfig) (defaults : Option SubscriptionCommonDefinition)
    (st : CtxState) : List SubscriptionDefinitionWithHandler → Except String CtxState
  | [] => Except.ok st
  | d :: ds =>
    match processOne cfg defaults st d with
    | Except.error e => Except.error e
    | Except.ok st1 => runDefs cfg defaults st1 ds

/-- Model of the setup phase of `AbstractTBS._ctx_factory` (everything
before `yield`): process the declared definitions starting from the
configured token and the given server state, with empty logs. -/
def ctxSetup (cfg : TBSConfig) (defaults : Option SubscriptionCommonDefinition)
    (server : List R4BSubscription) (defs : List SubscriptionDefinitionWithHandler) :
    Except String CtxState :=
  runDefs cfg defaults
    { server := server, token := cfg.webhook_token, created := [], deleted := [], routes := [] }
    defs

/-- Model of the teardown phase of `AbstractTBS._ctx_factory`: the
generator body after `yield` is empty, so lifecycle end performs no
action and leaves every piece of state unchanged. -/
def ctxTeardown (st : CtxState) : CtxState := st

/-! ### Aidbox-generation lifecycle (`aidbox_python_sdk_tbs.implementation.tbs_ctx_factory`) -/

/-- Model of a subscription resource as seen by the aidbox-generation
lifecycle: whatever the protocol-specific builder produced, restricted to
the searchable URL; `name` and `token` record the builder inputs. -/
structure AidboxSubscription where
  name : String
  url : String
  token : String
deriving DecidableEq

/-- Model of `aidbox_python_sdk_tbs.types.SubscriptionDefinition`. -/
structure AidboxDefinition where
  topic : String
  filterBy : List FilterBy
  handlerModule : String
  handlerName : String
deriving DecidableEq

/-- State of the aidbox-generation lifecycle: server content, created and
deleted subscriptions, and registered operation paths. -/
structure AidboxState where
  server : List AidboxSubscription
  created : List AidboxSubscription
  deleted : List AidboxSubscription
  ops : List String
deriving DecidableEq

/-- Model of `cleanup_subscriptions_by_url`: delete every stored
subscription at the webhook URL; returns the remaining server and the
deleted subscriptions, both in stored order. -/
def cleanup_subscriptions_by_url (server : List AidboxSubscription) (url : String) :
    List AidboxSubscription × List AidboxSubscription :=
  (server.filter (fun s => decide (¬s.url = url)),
   server.filter (fun s => decide (s.url = url)))

/-- Model of the setup loop of `tbs_ctx_factory` (before `yield`): for each
definition in order, derive the webhook path from the handler, draw a
fresh token (the `uuid4()` call is modelled by a supplied token stream
indexed by position), clean up existing subscriptions at the URL, register
the public operation, and create the newly built subscription, appending
it to the created list. -/
def aidboxSetupLoop (build : String → String → String → AidboxDefinition → AidboxSubscription)
    (aidbox_public_url : String) (tokens : Nat → String) (i : Nat)
    (st : AidboxState) : List AidboxDefinition → AidboxState
  | [] => st
  | d :: ds =>
    let handler_name := d.handlerModule ++ "." ++ d.handlerName
    let webhook_path := "webhook" ++ "/" ++ handler_name
    let webhook_url := aidbox_public_url ++ "/" ++ webhook_path
    let cleaned := cleanup_subscriptions_by_url st.server webhook_url
    let sub := build handler_name webhook_url (tokens i) d
    aidboxSetupLoop build aidbox_public_url tokens (i + 1)
      { server := cleaned.1 ++ [sub]
        created := st.created ++ [sub]
        deleted := st.deleted ++ cleaned.2
        ops := st.ops ++ [webhook_path] } ds

/-- Model of the setup phase of `tbs_ctx_factory` from a given server. -/
def aidbox_tbs_ctx_setup (build : String → String → String → AidboxDefinition → AidboxSubscription)
    (aidbox_public_url : String) (tokens : Nat → String)
    (server : List AidboxSubscription) (subscriptions : List AidboxDefinition) : AidboxState :=
  aidboxSetupLoop build aidbox_public_url tokens 0
    { server := server, created := [], deleted := [], ops := [] } subscriptions

/-- Model of the teardown of `tbs_ctx_factory` (after `yield`): delete each
created subscription from the server, in creation order; operation routes
are left to the hosting SDK. -/
def aidbox_tbs_ctx_teardown (st : AidboxState) : AidboxState :=
  st.created.foldl
    (fun s sub => { s with server := s.server.erase sub, deleted := s.deleted ++ [sub] })
    st

/-- Helper: under management with a mandatory client and base URL, a loop
iteration that finds an `active` existing subscription performs no create
and no delete, leaves the server unchanged, and overwrites the shared
token variable with the extracted token before registering the route. -/
theorem processOne_active_core (cfg : TBSConfig)
    (defaults : Option SubscriptionCommonDefinition) (st : CtxState)
    (d : SubscriptionDefinitionWithHandler) (s : R4BSubscription)
    (tok : Option String) (wid : String)
    (hm : cfg.manage_subscriptions = true)
    (hc : cfg.has_fhir_client = true)
    (ha : cfg.app_url.getD "" ≠ "")
    (hwid : resolveWebhookId cfg d = Except.ok wid)
    (hfetch : fetch_subscription st.server (webhookUrlOf cfg (webhookPathOf cfg wid)) = some s)
    (hinfo : extract_subscription_info s = Except.ok { status := "active", token := tok }) :
    processOne cfg defaults st d =
      Except.ok (registerRoute { st with token := tok } cfg wid d) := by
  unfold processOne
  simp [hwid, hm, hc, ha, hfetch, hinfo]

/-- Helper: under management with a mandatory client and base URL, a loop
iteration that finds no existing subscription builds one with the current
value of the shared token variable, creates it, and registers the route. -/
theorem processOne_create_core (cfg : TBSConfig)
    (defaults : Option SubscriptionCommonDefinition) (st : CtxState)
    (d : SubscriptionDefinitionWithHandler) (wid : String) (sub : R4BSubscription)
    (hm : cfg.manage_subscriptions = true)
    (hc : cfg.has_fhir_client = true)
    (ha : cfg.app_url.getD "" ≠ "")
    (hwid : resolveWebhookId cfg d = Except.ok wid)
    (hfetch : fetch_subscription st.server (webhookUrlOf cfg (webhookPathOf cfg wid)) = none)
    (hbuild : build_subscription wid (webhookUrlOf cfg (webhookPathOf cfg wid)) st.token
        (prepareDefinition defaults d) = Except.ok sub) :
    processOne cfg defaults st d =
      Except.ok (registerRoute
        { st with server := st.server ++ [sub], created := st.created ++ [sub] }
        cfg wid d) := by
  unfold processOne createAndRegister
  simp [hwid, hm, hc, ha, hfetch, hbuild]

theorem aidbox_teardown_foldl (l : List AidboxSubscription) (s : AidboxState) :
    (l.foldl (fun s sub =>
        { s with server := s.server.erase sub, deleted := s.deleted ++ [sub] }) s).deleted =
      s.deleted ++ l ∧
    (l.foldl (fun s sub =>
        { s with server := s.server.erase sub, deleted := s.deleted ++ [sub] }) s).ops =
      s.ops ∧
    (l.foldl (fun s sub =>
        { s with server := s.server.erase sub, deleted := s.deleted ++ [sub] }) s).created =
      s.created := by
  induction l generalizing s with
  | nil => simp
  | cons x xs ih =>
    simp only [List.foldl_cons]
    rcases ih { s with server := s.server.erase x, deleted := s.deleted ++ [x] } with
      ⟨h1, h2, h3⟩
    refine ⟨?_, h2, h3⟩
    rw [h1]
    simp

/-- C1 (amended): in the aidbox-generation lifecycle, teardown deletes
exactly the subscriptions created during setup, in creation order, and
removes no registered operation route; the current-generation
`AbstractTBS._ctx_factory` performs no teardown action at all (its
generator body after `yield` is empty), so the subscriptions it created
are not deleted at lifecycle end. -/
theorem C1_teardown_deletes_created :
    (∀ st : AidboxState,
      (aidbox_tbs_ctx_teardown st).deleted = st.deleted ++ st.created ∧
      (aidbox_tbs_ctx_teardown st).ops = st.ops ∧
      (aidbox_tbs_ctx_teardown st).created = st.created) ∧
    (∀ st : CtxState, ctxTeardown st = st) :=
  ⟨fun st => aidbox_teardown_foldl st.created st, fun _ => rfl⟩

/-- Concrete managed configuration used by the lifecycle examples. -/
def c1cfg : TBSConfig :=
  { webhook_path_pref := "webhook", webhook_token := some "t0",
    manage_subscriptions := true, handle_delivery_errors := false,
    app_url := some "http://app", has_fhir_client := true }

/-- Concrete filter used by the lifecycle examples. -/
def patientStatusFilter : FilterBy :=
  { resource_type := "Patient", filter_parameter := "status", value := "active",
    comparator := none, modifier := none }

/-- Concrete managed definition used by the lifecycle examples. -/
def c1def : SubscriptionDefinitionWithHandler :=
  { topic := "topic1",
    filter_by := [patientStatusFilter],
    payload_content := none, heartbeat_period := none, timeout := none,
    webhook_id := some "wh1", handlerModule := "app", handlerName := "h1" }

/-- C1 counterexample: a managed setup run of the current-generation
`_ctx_factory` against an empty server creates one remote subscription,
and the teardown (the empty generator body after `yield`) deletes
nothing: the deletion log stays empty and the created subscription is
still on the server at lifecycle end. -/
theorem C1_counterexample :
    ∃ st : CtxState, ctxSetup c1cfg none [] [c1def] = Except.ok st ∧
      st.created.length = 1 ∧
      ctxTeardown st = st ∧
      (ctxTeardown st).deleted = [] ∧
      (ctxTeardown st).server = st.created :=
  ⟨_, rfl, rfl, rfl, rfl, rfl⟩

/-- C2 (evaluation at the failing input): with no per-definition override
and no defaults object, the loop resolves payload content `id-only`,
timeout `20` and heartbeat period `60` — the numeric built-in constants
are swapped relative to the claim and to the hard-coded values of the
other builders in this repository (heartbeat 20, timeout 60). -/
theorem C2_builtin_constants_eval :
    prepareDefinition none
      { topic := "topic1", filter_by := [], payload_content := none,
        heartbeat_period := none, timeout := none, webhook_id := none,
        handlerModule := "m", handlerName := "h" } =
      { filter_by := [], topic := "topic1", payload_content := "id-only",
        heartbeat_period := 60, timeout := 20 } := rfl

/-- Helper: one successful loop iteration advances the fold. -/
theorem runDefs_cons_ok (cfg : TBSConfig) (defaults : Option SubscriptionCommonDefinition)
    (st : CtxState) (d : SubscriptionDefinitionWithHandler)
    (ds : List SubscriptionDefinitionWithHandler) (st1 : CtxState)
    (h : processOne cfg defaults st d = Except.ok st1) :
    runDefs cfg defaults st (d :: ds) = runDefs cfg defaults st1 ds := by
  simp only [runDefs, h]

theorem runDefs_all_active (cfg : TBSConfig)
    (defaults : Option SubscriptionCommonDefinition) (S : List R4BSubscription)
    (hm : cfg.manage_subscriptions = true)
    (hc : cfg.has_fhir_client = true)
    (ha : cfg.app_url.getD "" ≠ "") :
    ∀ defs : List SubscriptionDefinitionWithHandler,
      (∀ d ∈ defs, ∃ s tok wid,
        resolveWebhookId cfg d = Except.ok wid ∧
        fetch_subscription S (webhookUrlOf cfg (webhookPathOf cfg wid)) = some s ∧
        extract_subscription_info s = Except.ok { status := "active", token := tok }) →
      ∀ (tok0 : Option String) (rts : List Route),
        ∃ st1, runDefs cfg defaults
            { server := S, token := tok0, created := [], deleted := [], routes := rts }
            defs = Except.ok st1 ∧
          st1.server = S ∧ st1.created = [] ∧ st1.deleted = [] := by
  intro defs
  induction defs with
  | nil =>
    intro _ tok0 rts
    exact ⟨_, rfl, rfl, rfl, rfl⟩
  | cons d ds ih =>
    intro hall tok0 rts
    obtain ⟨s, tok, wid, hwid, hfetch, hinfo⟩ := hall d (List.mem_cons_self _ _)
    have hstep := processOne_active_core cfg defaults
      { server := S, token := tok0, created := [], deleted := [], routes := rts }
      d s tok wid hm hc ha hwid hfetch hinfo
    obtain ⟨st1, hrun, h1, h2, h3⟩ :=
      ih (fun d2 hd2 => hall d2 (List.mem_cons_of_mem _ hd2)) tok
        (rts ++ [{ path := "/" ++ webhookPathOf cfg wid, token := tok,
                   handler := d.handlerModule ++ "." ++ d.handlerName }])
    refine ⟨st1, ?_, h1, h2, h3⟩
    simp only [runDefs, hstep]
    exact hrun

/-- C7: reconciliation under management is idempotent: a loop iteration
that finds an `active` subscription matching the webhook URL performs zero
create calls, keeps the server unchanged, and registers the route with the
token extracted from the existing subscription; a whole setup run over
definitions that all have `active` matches creates and deletes nothing and
leaves the server unchanged, so running setup a second time on the
resulting server produces the identical outcome (same extracted tokens on
the routes). -/
theorem C7_reconciliation_idempotent :
    (∀ (cfg : TBSConfig) (defaults : Option SubscriptionCommonDefinition)
        (st : CtxState) (d : SubscriptionDefinitionWithHandler)
        (s : R4BSubscription) (tok : Option String) (wid : String),
      cfg.manage_subscriptions = true →
      cfg.has_fhir_client = true →
      cfg.app_url.getD "" ≠ "" →
      resolveWebhookId cfg d = Except.ok wid →
      fetch_subscription st.server (webhookUrlOf cfg (webhookPathOf cfg wid)) = some s →
      extract_subscription_info s = Except.ok { status := "active", token := tok } →
      processOne cfg defaults st d =
        Except.ok (registerRoute { st with token := tok } cfg wid d)) ∧
    (∀ (cfg : TBSConfig) (defaults : Option SubscriptionCommonDefinition)
        (S : List R4BSubscription) (defs : List SubscriptionDefinitionWithHandler),
      cfg.manage_subscriptions = true →
      cfg.has_fhir_client = true →
      cfg.app_url.getD "" ≠ "" →
      (∀ d ∈ defs, ∃ s tok wid,
        resolveWebhookId cfg d = Except.ok wid ∧
        fetch_subscription S (webhookUrlOf cfg (webhookPathOf cfg wid)) = some s ∧
        extract_subscription_info s = Except.ok { status := "active", token := tok }) →
      ∃ st1, ctxSetup cfg defaults S defs = Except.ok st1 ∧
        st1.created = [] ∧ st1.deleted = [] ∧ st1.server = S ∧
        ctxSetup cfg defaults st1.server defs = Except.ok st1) := by
  constructor
  · intro cfg defaults st d s tok wid hm hc ha hwid hfetch hinfo
    exact processOne_active_core cfg defaults st d s tok wid hm hc ha hwid hfetch hinfo
  · intro cfg defaults S defs hm hc ha hall
    obtain ⟨st1, hrun, hS, hcr, hdl⟩ :=
      runDefs_all_active cfg defaults S hm hc ha defs hall cfg.webhook_token []
    refine ⟨st1, hrun, hcr, hdl, hS, ?_⟩
    rw [hS]
    exact hrun

/-- Concrete `active` remote subscription matching the webhook URL of
`c1def`, carrying the token `t1` in its credential header. -/
def c7sub : R4BSubscription :=
  { status := "active", reason := "", criteria := "topic1",
    channelType := "rest-hook", channelEndpoint := "http://app/webhook/wh1",
    channelPayload := "application/fhir+json", payloadContent := "id-only",
    channelHeader := some ["X-Api-Key: t1"], maxCount := 1,
    heartbeatPeriod := 60, timeout := 20, filterCriteria := "" }

/-- Witness for C7 at a concrete server holding an active match. -/
theorem C7_reconciliation_idempotent_witness :
    ∃ st1, ctxSetup c1cfg none [c7sub] [c1def] = Except.ok st1 ∧
      st1.created = [] ∧ st1.deleted = [] ∧ st1.server = [c7sub] ∧
      ctxSetup c1cfg none st1.server [c1def] = Except.ok st1 :=
  C7_reconciliation_idempotent.2 c1cfg none [c7sub] [c1def] rfl rfl (by decide)
    (by
      intro d hd
      have hd1 : d = c1def := by simpa using hd
      subst hd1
      exact ⟨c7sub, some "t1", "wh1", rfl, rfl, rfl⟩)

/-- C9: the configured webhook token is not isolated per definition: when
reconciling the first definition finds an `active` remote subscription,
its extracted token overwrites the shared token variable, so a later
definition in the same run with no existing subscription is created and
registered with that extracted token instead of the originally configured
one. -/
theorem C9_shared_token_overwrite (cfg : TBSConfig)
    (defaults : Option SubscriptionCommonDefinition) (S : List R4BSubscription)
    (d1 d2 : SubscriptionDefinitionWithHandler) (s1 : R4BSubscription)
    (t1 : String) (wid1 wid2 : String) (sub2 : R4BSubscription)
    (hm : cfg.manage_subscriptions = true)
    (hc : cfg.has_fhir_client = true)
    (ha : cfg.app_url.getD "" ≠ "")
    (hwid1 : resolveWebhookId cfg d1 = Except.ok wid1)
    (hfetch1 : fetch_subscription S (webhookUrlOf cfg (webhookPathOf cfg wid1)) = some s1)
    (hinfo1 : extract_subscription_info s1 =
      Except.ok { status := "active", token := some t1 })
    (hwid2 : resolveWebhookId cfg d2 = Except.ok wid2)
    (hfetch2 : fetch_subscription S (webhookUrlOf cfg (webhookPathOf cfg wid2)) = none)
    (hbuild : build_subscription wid2 (webhookUrlOf cfg (webhookPathOf cfg wid2)) (some t1)
        (prepareDefinition defaults d2) = Except.ok sub2)
    (hconf : cfg.webhook_token ≠ some t1) :
    ∃ st, ctxSetup cfg defaults S [d1, d2] = Except.ok st ∧
      st.created = [sub2] ∧
      st.routes.map Route.token = [some t1, some t1] ∧
      st.routes.map Route.token ≠ [cfg.webhook_token, cfg.webhook_token] := by
  have h1 := processOne_active_core cfg defaults
    { server := S, token := cfg.webhook_token, created := [], deleted := [], routes := [] }
    d1 s1 (some t1) wid1 hm hc ha hwid1 hfetch1 hinfo1
  have h2 := processOne_create_core cfg defaults
    (registerRoute { server := S, token := some t1, created := [], deleted := [], routes := [] }
      cfg wid1 d1)
    d2 wid2 sub2 hm hc ha hwid2 hfetch2 hbuild
  have step1 := runDefs_cons_ok cfg defaults _ d1 [d2] _ h1
  have step2 := runDefs_cons_ok cfg defaults _ d2 [] _ h2
  refine ⟨{ server := S ++ [sub2], token := some t1, created := [sub2], deleted := [], routes := [{ path := "/" ++ webhookPathOf cfg wid1, token := some t1, handler := d1.handlerModule ++ "." ++ d1.handlerName }, { path := "/" ++ webhookPathOf cfg wid2, token := some t1, handler := d2.handlerModule ++ "." ++ d2.handlerName }] }, ?_, rfl, rfl, ?_⟩
  · unfold ctxSetup
    rw [step1, step2]
    exact rfl
  · intro hcontr
    injection hcontr with hhead _
    exact hconf hhead.symm

/-- Concrete second managed definition with no existing subscription. -/
def c9d2 : SubscriptionDefinitionWithHandler :=
  { topic := "topic2",
    filter_by := [patientStatusFilter],
    payload_content := none, heartbeat_period := none, timeout := none,
    webhook_id := some "wh2", handlerModule := "app", handlerName := "h2" }

/-- The subscription created for `c9d2` when the leaked token `t1` is in
the shared token variable. -/
def c9sub2 : R4BSubscription :=
  { status := "requested", reason := "Autogenerated subscription for wh2",
    criteria := "topic2", channelType := "rest-hook",
    channelEndpoint := "http://app/webhook/wh2",
    channelPayload := "application/fhir+json", payloadContent := "id-only",
    channelHeader := some ["X-Api-Key: t1"], maxCount := 1,
    heartbeatPeriod := 60, timeout := 20, filterCriteria := "Patient?status=active" }

/-- Witness for C9 at a concrete two-definition run. -/
theorem C9_shared_token_overwrite_witness :
    ∃ st, ctxSetup c1cfg none [c7sub] [c1def, c9d2] = Except.ok st ∧
      st.created = [c9sub2] ∧
      st.routes.map Route.token = [some "t1", some "t1"] ∧
      st.routes.map Route.token ≠ [c1cfg.webhook_token, c1cfg.webhook_token] :=
  C9_shared_token_overwrite c1cfg none [c7sub] c1def c9d2 c7sub "t1" "wh1" "wh2" c9sub2
    rfl rfl (by decide) rfl rfl rfl rfl rfl rfl (by decide)

end FhirTbs
